import Mathlib

/- Verification of the gemini-chatbot repository: a relay server
   (server.js) forwarding prompts and images to an upstream generative
   API, and a browser chat client (the unnamed client script).
   Machine behaviour is embedded shallowly: the request handler becomes a
   pure function from the environment credential, the parsed request and
   an upstream oracle to the relay response paired with the outbound
   payload (none when no outbound call is made); the client becomes
   explicit state-passing functions. -/

namespace GeminiApp

/-- JSON values, for request and response bodies. -/
inductive JVal where
  | null
  | str (s : String)
  | num (n : Int)
  | obj (fields : List (String × JVal))
  | arr (elems : List JVal)

/-- JavaScript string truthiness for an optional string:
    undefined and the empty string are falsy. -/
def jsTruthy : Option String → Bool
  | none => false
  | some s => s != ""

/-- JavaScript `o || d` for an optional string: the default is taken
    when the value is undefined or the empty string. -/
def jsStrOr (o : Option String) (d : String) : String :=
  match o with
  | none => d
  | some s => if s = "" then d else s

/-- Base64 alphabet, as used by Buffer.toString with base64 encoding. -/
def base64Chars : List Char :=
  "ABCDEFGHIJKLMNOPQRSTUVWXYZabcdefghijklmnopqrstuvwxyz0123456789+/".toList

def b64Char (n : Nat) : Char := base64Chars.getD n 'A'

/-- Standard base64 of a byte sequence (file.buffer.toString with base64):
    three bytes become four alphabet characters, trailing groups padded
    with the equals sign. -/
def base64Encode : List Nat → String
  | [] => ""
  | [b1] =>
    String.mk [b64Char (b1 / 4), b64Char (b1 % 4 * 16), '=', '=']
  | [b1, b2] =>
    String.mk [b64Char (b1 / 4), b64Char (b1 % 4 * 16 + b2 / 16),
      b64Char (b2 % 16 * 4), '=']
  | b1 :: b2 :: b3 :: rest =>
    String.mk [b64Char (b1 / 4), b64Char (b1 % 4 * 16 + b2 / 16),
      b64Char (b2 % 16 * 4 + b3 / 64), b64Char (b3 % 64)] ++ base64Encode rest

/-- A multer-parsed uploaded file: req.file. The mimetype is optional to
    model an undetected MIME type (a falsy mimetype field). -/
structure UploadedFile where
  originalname : String
  buffer : List Nat
  mimetype : Option String

/-- A parsed Generate request: req.body.prompt (absent when the field or
    the body is missing) and req.file (present for multipart uploads). -/
structure GenRequest where
  prompt : Option String
  file : Option UploadedFile

/-- One part of an upstream content: either inline image data or text. -/
inductive Part where
  | inline_data (mime_type : String) (data : String)
  | text (t : String)

/-- One content of the upstream request body. -/
structure Content where
  parts : List Part

/-- The JSON body sent to the upstream generative API. -/
structure GeminiPayload where
  contents : List Content

/-- The upstream fetch response: its HTTP status and decoded JSON body. -/
structure UpstreamResponse where
  status : Nat
  body : JVal

/-- fetch response.ok: true exactly for statuses 200 through 299. -/
def respOk (r : UpstreamResponse) : Bool :=
  200 ≤ r.status && r.status < 300

/-- The relay response: HTTP status and optional JSON body
    (res.sendStatus sends no JSON body). -/
structure RelayResponse where
  status : Nat
  body : Option JVal

/-- res.status(s).json of a single error field. -/
def errorJson (msg : String) : JVal :=
  JVal.obj [("error", JVal.str msg)]

/-- The error envelope for a failed upstream call: the fixed message plus
    the upstream error body embedded as the details field. -/
def upstreamErrorJson (details : JVal) : JVal :=
  JVal.obj [("error", JVal.str "Gemini API request failed"),
    ("details", details)]

/-- The default descriptive prompt used when an image is uploaded with a
    falsy prompt. -/
def defaultImagePrompt : String :=
  "What is in this image? Describe it in detail."

/-- The multimodal upstream request built for an image upload: one
    content whose parts are the inline base64 image data (MIME type
    defaulting to image/jpeg) followed by the text prompt (defaulting to
    the descriptive prompt). -/
def multimodalRequest (file : UploadedFile) (prompt : Option String) :
    GeminiPayload :=
  { contents := [
      { parts := [
          Part.inline_data (jsStrOr file.mimetype "image/jpeg")
            (base64Encode file.buffer),
          Part.text (jsStrOr prompt defaultImagePrompt) ] } ] }

/-- The text-only upstream request: one content with one text part. -/
def textRequest (prompt : String) : GeminiPayload :=
  { contents := [ { parts := [Part.text prompt] } ] }

/-- The shared tail of the handler once a payload is forwarded: on a
    non-ok upstream status, reply with that status and the error
    envelope; otherwise return the upstream body as is.  The second
    component records the outbound payload. -/
def forwardUpstream (payload : GeminiPayload)
    (upstream : GeminiPayload → UpstreamResponse) :
    RelayResponse × Option GeminiPayload :=
  if respOk (upstream payload) then
    ({ status := 200, body := some (upstream payload).body }, some payload)
  else
    ({ status := (upstream payload).status,
       body := some (upstreamErrorJson (upstream payload).body) }, some payload)

/-- The POST /api/gemini handler.  apiKey is process.env.API_KEY
    (none when unset); upstream is the network oracle.  Returns the relay
    response and the outbound payload sent upstream, none when no
    outbound call is made. -/
def geminiHandler (apiKey : Option String) (req : GenRequest)
    (upstream : GeminiPayload → UpstreamResponse) :
    RelayResponse × Option GeminiPayload :=
  match req.file with
  | some file =>
    if jsTruthy apiKey then
      forwardUpstream (multimodalRequest file req.prompt) upstream
    else
      ({ status := 500,
         body := some (errorJson "API_KEY not configured in .env file") },
       none)
  | none =>
    if jsTruthy req.prompt then
      if jsTruthy apiKey then
        forwardUpstream (textRequest (jsStrOr req.prompt "")) upstream
      else
        ({ status := 500,
           body := some (errorJson "API_KEY not configured in .env file") },
         none)
    else
      ({ status := 400,
         body := some (errorJson "Prompt is required when no image is uploaded") },
       none)

/-- Result of the CORS middleware for one request: the response headers
    it sets and, for preflight requests, the final response it sends
    instead of calling next. -/
structure MiddlewareResult where
  headers : List (String × String)
  preflight : Option RelayResponse

/-- The single origin the middleware allows. -/
def allowedOrigin : String := "http://127.0.0.1:5500"

/-- The CORS middleware: sets the three access-control headers on every
    response and answers OPTIONS requests directly with status 200 and no
    body. -/
def corsMiddleware (method : String) : MiddlewareResult :=
  { headers := [
      ("Access-Control-Allow-Origin", allowedOrigin),
      ("Access-Control-Allow-Methods", "GET, POST, OPTIONS"),
      ("Access-Control-Allow-Headers", "Content-Type") ],
    preflight :=
      if method = "OPTIONS" then some { status := 200, body := none }
      else none }

def lookupHeader (headers : List (String × String)) (key : String) :
    Option String :=
  (headers.find? (fun h => h.1 = key)).map (fun h => h.2)

/-- Whether a browser at the given origin is admitted by the response:
    per the CORS protocol, the request succeeds in the browser exactly
    when the allow-origin header names that origin or the wildcard. -/
def originAdmitted (r : MiddlewareResult) (origin : String) : Bool :=
  match lookupHeader r.headers "Access-Control-Allow-Origin" with
  | none => false
  | some v => v == origin || v == "*"

/- ----------------------------------------------------------------- -/
/- Chat client model (the unnamed browser script).                    -/
/- ----------------------------------------------------------------- -/

/-- A DOM File object, abstracted to its identifying attributes. -/
structure File where
  name : String
  mime : String
  bytes : List Nat

/-- One stored exchange: chatHistory entries. -/
structure HistEntry where
  userMessage : String
  hasImage : Bool

/-- The client state touched by the submit path: the in-flight flag, the
    single pending attachment slot, the number of visible chat-list
    messages, the in-memory history, and the hide-header class. -/
structure ClientState where
  isResponseGenerating : Bool
  attachedImageFile : Option File
  chatListLen : Nat
  chatHistory : List HistEntry
  hideHeader : Bool

/-- The HTTP request issued by processPrompt: multipart form data when an
    image is attached, JSON otherwise. -/
structure OutRequest where
  prompt : String
  image : Option File
  multipart : Bool

def processPrompt (p : String) (img : Option File) : OutRequest :=
  match img with
  | some f => { prompt := p, image := some f, multipart := true }
  | none => { prompt := p, image := none, multipart := false }

/-- handleOutgoingMessage: returns without change when there is neither
    a (truthy) prompt nor an attachment, or a response is already being
    generated; otherwise sets the in-flight flag, appends the outgoing
    message to the visible list, hides the header and issues the
    request. -/
def handleOutgoingMessage (s : ClientState) (p : String) :
    ClientState × Option OutRequest :=
  if (p == "" && s.attachedImageFile.isNone) || s.isResponseGenerating then
    (s, none)
  else
    ({ s with
        isResponseGenerating := true,
        chatListLen := s.chatListLen + 1,
        hideHeader := true },
     some (processPrompt p s.attachedImageFile))

/-- The form submit listener: trims the input value and hands it to
    handleOutgoingMessage. -/
def submitForm (s : ClientState) (raw : String) :
    ClientState × Option OutRequest :=
  handleOutgoingMessage s raw.trim

/-- The image-input change listener: with no selected file it returns
    unchanged; otherwise it stores the first selected file in the single
    attachment slot, replacing any previous one. -/
def imageInputChange (s : ClientState) (files : List File) : ClientState :=
  match files with
  | [] => s
  | f :: _ => { s with attachedImageFile := some f }

/-- Number of pending attachments held by a state. -/
def pendingCount (s : ClientState) : Nat :=
  match s.attachedImageFile with
  | none => 0
  | some _ => 1

/-- JavaScript split on a single space character: always returns at
    least one (possibly empty) token. -/
def splitSpaceAux : List Char → List Char → List String
  | [], acc => [String.mk acc.reverse]
  | c :: cs, acc =>
    if c = ' ' then String.mk acc.reverse :: splitSpaceAux cs []
    else splitSpaceAux cs (c :: acc)

def jsSplitSpace (s : String) : List String :=
  splitSpaceAux s.toList []

/-- What the incoming message element shows: plain accumulated text
    during the reveal, or final HTML after the closing re-render. -/
inductive Rendered where
  | plain (t : String)
  | html (h : String)

/-- Outcome of running the typing interval to completion: how many timer
    ticks appended a token, what the element finally shows, and the
    final value of the in-flight flag. -/
structure TypingResult where
  ticks : Nat
  rendered : Rendered
  generating : Bool

/-- The interval body of showTypingEffect, run to completion over the
    remaining words: each tick appends one token (space-separated after
    the first); on the tick that consumes the last word the interval is
    cleared, the in-flight flag reset and the element re-rendered with
    the parsed HTML.  With no words the interval never completes, so
    the flag stays set. -/
def goReveal (parsed : String) :
    List String → Nat → String → TypingResult
  | [], _, t => { ticks := 0, rendered := Rendered.plain t, generating := true }
  | w :: rest, i, t =>
    let t2 := t ++ (if i = 0 then "" else " ") ++ w
    match rest with
    | [] => { ticks := 1, rendered := Rendered.html parsed, generating := false }
    | w2 :: rest2 =>
      let r := goReveal parsed (w2 :: rest2) (i + 1) t2
      { r with ticks := r.ticks + 1 }

/-- showTypingEffect on a reply and its markdown-parsed HTML: splits the
    reply on single spaces and runs the reveal interval. -/
def showTypingEffect (response : String) (parsed : String) : TypingResult :=
  goReveal parsed (jsSplitSpace response) 0 ""

/- ----------------------------------------------------------------- -/
/- Helper lemmas.                                                     -/
/- ----------------------------------------------------------------- -/

lemma splitSpaceAux_ne_nil (cs : List Char) (acc : List Char) :
    splitSpaceAux cs acc ≠ [] := by
  induction cs generalizing acc with
  | nil => simp [splitSpaceAux]
  | cons c cs ih =>
    simp only [splitSpaceAux]
    split
    · simp
    · exact ih _

lemma jsSplitSpace_ne_nil (s : String) : jsSplitSpace s ≠ [] :=
  splitSpaceAux_ne_nil _ _

lemma goReveal_of_ne_nil (parsed : String) (ws : List String)
    (hw : ws ≠ []) : ∀ (i : Nat) (t : String),
    goReveal parsed ws i t =
      { ticks := ws.length, rendered := Rendered.html parsed,
        generating := false } := by
  induction ws with
  | nil => exact absurd rfl hw
  | cons w rest ih =>
    intro i t
    cases rest with
    | nil => rfl
    | cons w2 rest2 =>
      simp only [goReveal, ih (by simp) (i + 1)]
      rfl

lemma jsTruthy_none : jsTruthy none = false := rfl

lemma forwardUpstream_snd (payload : GeminiPayload)
    (upstream : GeminiPayload → UpstreamResponse) :
    (forwardUpstream payload upstream).2 = some payload := by
  unfold forwardUpstream
  split <;> rfl

/-- Whenever the handler records an outbound payload, its whole result is
    that of forwarding exactly that payload. -/
lemma geminiHandler_out_forward (apiKey : Option String) (req : GenRequest)
    (upstream : GeminiPayload → UpstreamResponse) (payload : GeminiPayload)
    (hout : (geminiHandler apiKey req upstream).2 = some payload) :
    geminiHandler apiKey req upstream = forwardUpstream payload upstream := by
  obtain ⟨prompt, file⟩ := req
  cases file with
  | some f =>
    by_cases hk : jsTruthy apiKey = true
    · simp only [geminiHandler, hk, if_true] at hout ⊢
      rw [forwardUpstream_snd] at hout
      rw [← Option.some.inj hout]
    · simp [geminiHandler, hk] at hout
  | none =>
    by_cases hp : jsTruthy prompt = true
    · by_cases hk : jsTruthy apiKey = true
      · simp only [geminiHandler, hp, hk, if_true] at hout ⊢
        rw [forwardUpstream_snd] at hout
        rw [← Option.some.inj hout]
      · simp [geminiHandler, hp, hk] at hout
    · simp [geminiHandler, hp] at hout

/- ----------------------------------------------------------------- -/
/- Claim theorems.                                                    -/
/- ----------------------------------------------------------------- -/

/-- C1: a Generate call with no image file and an absent or empty prompt
    is answered with status 400 and an error message, and no outbound
    request is made. -/
theorem generate_missing_input_400 (apiKey : Option String)
    (req : GenRequest) (upstream : GeminiPayload → UpstreamResponse)
    (hfile : req.file = none)
    (hp : req.prompt = none ∨ req.prompt = some "") :
    geminiHandler apiKey req upstream =
      ({ status := 400,
         body := some (errorJson "Prompt is required when no image is uploaded") },
       none) := by
  obtain ⟨prompt, file⟩ := req
  simp only at hfile hp
  subst hfile
  rcases hp with h | h <;> subst h <;> rfl

theorem generate_missing_input_400_witness :
    geminiHandler (some "k") { prompt := some "", file := none }
      (fun _ => { status := 200, body := JVal.null }) =
      ({ status := 400,
         body := some (errorJson "Prompt is required when no image is uploaded") },
       none) :=
  generate_missing_input_400 (some "k") _ _ rfl (Or.inr rfl)

/-- C2: a Generate call that passes input validation (an image is
    present, or a truthy prompt is present) with the credential unset is
    answered with status 500 and an error message, and no outbound
    request is made. -/
theorem generate_missing_api_key_500 (req : GenRequest)
    (upstream : GeminiPayload → UpstreamResponse)
    (hvalid : req.file.isSome = true ∨ jsTruthy req.prompt = true) :
    geminiHandler none req upstream =
      ({ status := 500,
         body := some (errorJson "API_KEY not configured in .env file") },
       none) := by
  obtain ⟨prompt, file⟩ := req
  cases file with
  | some f => rfl
  | none =>
    rcases hvalid with h | h
    · simp at h
    · simp only at h
      simp [geminiHandler, h, jsTruthy_none]

theorem generate_missing_api_key_500_witness :
    geminiHandler none { prompt := some "Hello", file := none }
      (fun _ => { status := 200, body := JVal.null }) =
      ({ status := 500,
         body := some (errorJson "API_KEY not configured in .env file") },
       none) :=
  generate_missing_api_key_500 _ _ (Or.inr (by decide))

/-- The text-part condition asserted by claim C3: the forwarded text
    equals the supplied prompt, or the default description prompt when
    no prompt was supplied. -/
def c3TextMatches (supplied : Option String) (t : String) : Prop :=
  (∃ p, supplied = some p ∧ t = p) ∨
    (supplied = none ∧ t = defaultImagePrompt)

/-- Example uploaded file used at concrete inputs. -/
def exFile : UploadedFile :=
  { originalname := "a.png", buffer := [137, 80, 78],
    mimetype := some "image/png" }

def stubOk : GeminiPayload → UpstreamResponse :=
  fun _ => { status := 200, body := JVal.null }

/-- C3 counterexample: with an image and a supplied empty prompt the
    forwarded text part is the default description prompt, which is
    neither the supplied prompt nor covered by the no-prompt-supplied
    case, so the claim as stated fails at this input. -/
theorem multimodal_text_counterexample :
    (geminiHandler (some "key") { prompt := some "", file := some exFile }
        stubOk).2 =
      some { contents := [
        { parts := [Part.inline_data "image/png" "iVBO",
          Part.text defaultImagePrompt] } ] } ∧
    ¬ c3TextMatches (some "") defaultImagePrompt := by
  refine ⟨rfl, ?_⟩
  rintro (⟨p, hp, ht⟩ | ⟨hn, _⟩)
  · cases Option.some.inj hp
    exact absurd ht (by decide)
  · exact Option.noConfusion hn

/-- C3 amended: with an image and a truthy credential, the outbound body
    has exactly one content with exactly two parts: inline data holding
    the MIME type (image/jpeg when undetected) and the base64 bytes, and
    a text part equal to the supplied prompt when non-empty and the
    default description prompt when the prompt is absent or empty. -/
theorem multimodal_payload_shape (apiKey : Option String)
    (file : UploadedFile) (prompt : Option String)
    (upstream : GeminiPayload → UpstreamResponse)
    (hkey : jsTruthy apiKey = true) :
    (geminiHandler apiKey { prompt := prompt, file := some file }
        upstream).2 =
      some { contents := [
        { parts := [
            Part.inline_data (jsStrOr file.mimetype "image/jpeg")
              (base64Encode file.buffer),
            Part.text (jsStrOr prompt defaultImagePrompt) ] } ] } := by
  simp only [geminiHandler, hkey, if_true]
  exact forwardUpstream_snd _ _

theorem multimodal_payload_shape_witness :
    jsTruthy (some "key") = true ∧
    (geminiHandler (some "key") { prompt := none, file := some exFile }
        stubOk).2 =
      some { contents := [
        { parts := [
            Part.inline_data (jsStrOr exFile.mimetype "image/jpeg")
              (base64Encode exFile.buffer),
            Part.text (jsStrOr none defaultImagePrompt) ] } ] } :=
  ⟨by decide, multimodal_payload_shape (some "key") exFile none stubOk (by decide)⟩

/-- C4: a Generate call without an image, with a non-empty prompt and a
    truthy credential forwards exactly one content with exactly one text
    part equal to the supplied prompt. -/
theorem text_payload_single_part (apiKey : Option String) (p : String)
    (upstream : GeminiPayload → UpstreamResponse)
    (hp : p ≠ "") (hkey : jsTruthy apiKey = true) :
    (geminiHandler apiKey { prompt := some p, file := none } upstream).2 =
      some { contents := [ { parts := [Part.text p] } ] } := by
  have htr : jsTruthy (some p) = true := by
    simp [jsTruthy, hp]
  simp only [geminiHandler, htr, hkey, if_true]
  have h2 : jsStrOr (some p) "" = p := by
    simp [jsStrOr, hp]
  rw [forwardUpstream_snd, h2]
  rfl

theorem text_payload_single_part_witness :
    "Hello" ≠ "" ∧ jsTruthy (some "key") = true ∧
    (geminiHandler (some "key") { prompt := some "Hello", file := none }
        stubOk).2 =
      some { contents := [ { parts := [Part.text "Hello"] } ] } :=
  ⟨by decide, by decide,
    text_payload_single_part (some "key") "Hello" stubOk (by decide) (by decide)⟩

/-- C5: whenever the handler sends an outbound payload, a non-success
    upstream status S with body B yields the relay response with status S
    and the error envelope embedding B as details, and an upstream
    success yields status 200 with the upstream body unmodified. -/
theorem upstream_passthrough (apiKey : Option String) (req : GenRequest)
    (upstream : GeminiPayload → UpstreamResponse) (payload : GeminiPayload)
    (hout : (geminiHandler apiKey req upstream).2 = some payload) :
    (respOk (upstream payload) = false →
      (geminiHandler apiKey req upstream).1 =
        { status := (upstream payload).status,
          body := some (upstreamErrorJson (upstream payload).body) }) ∧
    (respOk (upstream payload) = true →
      (geminiHandler apiKey req upstream).1 =
        { status := 200, body := some (upstream payload).body }) := by
  rw [geminiHandler_out_forward apiKey req upstream payload hout]
  constructor
  · intro hbad
    simp [forwardUpstream, hbad]
  · intro hok
    simp [forwardUpstream, hok]

theorem upstream_passthrough_witness :
    (geminiHandler (some "k") { prompt := some "Hello", file := none }
        (fun _ => { status := 503, body := JVal.str "boom" })).2 =
      some (textRequest "Hello") ∧
    (geminiHandler (some "k") { prompt := some "Hello", file := none }
        (fun _ => { status := 503, body := JVal.str "boom" })).1 =
      { status := 503,
        body := some (upstreamErrorJson (JVal.str "boom")) } :=
  ⟨rfl,
    (upstream_passthrough (some "k")
      { prompt := some "Hello", file := none }
      (fun _ => { status := 503, body := JVal.str "boom" })
      (textRequest "Hello") rfl).1 (by decide)⟩

/-- C6: the middleware admits exactly the single allowed origin for every
    request, and every OPTIONS request is answered with status 200 and no
    body. -/
theorem cors_single_origin_preflight (method : String) (origin : String) :
    (originAdmitted (corsMiddleware method) origin = true ↔
      origin = allowedOrigin) ∧
    (corsMiddleware "OPTIONS").preflight =
      some { status := 200, body := none } := by
  constructor
  · have hred : originAdmitted (corsMiddleware method) origin =
        (allowedOrigin == origin || allowedOrigin == "*") := rfl
    rw [hred]
    simp only [Bool.or_eq_true, beq_iff_eq]
    constructor
    · rintro (h1 | h1)
      · exact h1.symm
      · exact absurd h1 (by decide)
    · intro h1
      exact Or.inl h1.symm
  · rfl

/-- C7: a submit whose trimmed text is empty with no attachment, or one
    arriving while a response is being generated, changes no state and
    issues no request. -/
theorem submit_noop_guard (s : ClientState) (raw : String)
    (h : (raw.trim = "" ∧ s.attachedImageFile = none) ∨
      s.isResponseGenerating = true) :
    submitForm s raw = (s, none) := by
  unfold submitForm handleOutgoingMessage
  rcases h with ⟨h1, h2⟩ | h
  · simp [h1, h2]
  · simp [h]

theorem submit_noop_guard_witness :
    submitForm
      { isResponseGenerating := true, attachedImageFile := none,
        chatListLen := 0, chatHistory := [], hideHeader := false }
      "Hello" =
      ({ isResponseGenerating := true, attachedImageFile := none,
         chatListLen := 0, chatHistory := [], hideHeader := false },
       none) :=
  submit_noop_guard _ "Hello" (Or.inr rfl)

/-- C8: the reveal sequence for a reply appends exactly as many tokens as
    the reply has space-split words, finally shows the markdown-parsed
    HTML, and clears the in-flight flag. -/
theorem typing_reveal_complete (response : String) (parsed : String) :
    (showTypingEffect response parsed).ticks =
      (jsSplitSpace response).length ∧
    (showTypingEffect response parsed).rendered = Rendered.html parsed ∧
    (showTypingEffect response parsed).generating = false := by
  unfold showTypingEffect
  rw [goReveal_of_ne_nil parsed (jsSplitSpace response)
    (jsSplitSpace_ne_nil response) 0 ""]
  exact ⟨rfl, rfl, rfl⟩

/-- C9: every client state holds at most one pending attachment, and
    selecting a file stores it in the single slot, replacing any previous
    attachment. -/
theorem attachment_replace_invariant :
    (∀ s : ClientState, pendingCount s ≤ 1) ∧
    (∀ (s : ClientState) (f : File) (rest : List File),
      (imageInputChange s (f :: rest)).attachedImageFile = some f) := by
  constructor
  · intro s
    cases h : s.attachedImageFile <;> simp [pendingCount, h]
  · intro s f rest
    rfl

/-- C10: every multipart Generate call that includes an image and a
    prompt field equal to the empty string, with the credential set,
    forwards the default description prompt as the text part, not the
    empty string. -/
theorem empty_prompt_default_text (apiKey : Option String)
    (file : UploadedFile) (upstream : GeminiPayload → UpstreamResponse)
    (hkey : jsTruthy apiKey = true) :
    (geminiHandler apiKey { prompt := some "", file := some file }
        upstream).2 =
      some { contents := [
        { parts := [
            Part.inline_data (jsStrOr file.mimetype "image/jpeg")
              (base64Encode file.buffer),
            Part.text defaultImagePrompt ] } ] } := by
  simp only [geminiHandler, hkey, if_true]
  rw [forwardUpstream_snd]
  rfl

theorem empty_prompt_default_text_witness :
    jsTruthy (some "key") = true ∧
    (geminiHandler (some "key") { prompt := some "", file := some exFile }
        stubOk).2 =
      some { contents := [
        { parts := [Part.inline_data "image/png" "iVBO",
          Part.text "What is in this image? Describe it in detail."] } ] } :=
  ⟨by decide, empty_prompt_default_text (some "key") exFile stubOk (by decide)⟩

end GeminiApp
